import Mathlib

/-
Shallow embedding of the Glue catalog (src/pyiceberg/catalog/glue.py).

The catalog translates logical identifiers into AWS Glue backend entities,
validates that an entity represents an Iceberg table, and runs the
multi-step lifecycle operations (create / load / drop / rename, namespace
CRUD, paginated listing).  The backend (the Glue service) is modelled as an
explicit state; each catalog operation is a pure function from state to
result, updated state and the list of backend calls issued.  Python
exceptions become `Except` errors; Python dicts become association lists
with unique keys (the dict discipline).

Out of scope, as in the spec: the byte-level metadata file format and its
codec, the generic file-access layer, schema / partition-spec / sort-order
internals.  Where an operation reads or writes a metadata file we record
only the location (content store is a list of written locations), and
entity validation returns the metadata location instead of a parsed table.
-/

namespace Glue

/-- Modelled from the spec: the reserved property keys and markers.  The
constants `TABLE_TYPE`, `METADATA_LOCATION`, `ICEBERG`, `EXTERNAL_TABLE` and
`LOCATION` are imported by glue.py from the base catalog module
(pyiceberg/catalog), which is not part of the sources; their values follow
the spec ("table-type" marker compared case-insensitively against the
format marker, "metadata-location" URI key, and the promoted
"location" key of namespace entities). -/
def TABLE_TYPE : String := "table_type"

/-- Reserved key holding the metadata file URI of a table entity. -/
def METADATA_LOCATION : String := "metadata_location"

/-- The format marker, in lowercase; entities are stamped with its
uppercase form and validated case-insensitively. -/
def ICEBERG : String := "iceberg"

/-- Glue table type stamped on newly created table entities. -/
def EXTERNAL_TABLE : String := "EXTERNAL_TABLE"

/-- Namespace property key promoted to the backend LocationUri field. -/
def LOCATION : String := "location"

/-- Properties: a Python dict of string keys to string values, modelled as
an association list in insertion order with unique keys. -/
abbrev Properties := List (String × String)

/-- Dict lookup: first binding of the key (dicts have unique keys). -/
def alGet {κ β : Type} [DecidableEq κ] (k : κ) : List (κ × β) → Option β
  | [] => none
  | kv :: l => if kv.1 = k then some kv.2 else alGet k l

/-- Removal of every binding of a key (backend entity deletion). -/
def alErase {κ β : Type} [DecidableEq κ] (k : κ) : List (κ × β) → List (κ × β)
  | [] => []
  | kv :: l => if kv.1 = k then alErase k l else kv :: alErase k l

/-- Python dict assignment `d[k] = v`: overwrites the binding in place when
the key exists, otherwise appends the new binding. -/
def dictInsert (l : Properties) (k v : String) : Properties :=
  if (alGet k l).isSome then l.map (fun kv => if kv.1 = k then (k, v) else kv)
  else l ++ [(k, v)]

/-- Python str.lower(), at the character-list level (so that it evaluates
by kernel reduction on concrete inputs). -/
def lowerStr (s : String) : String := ⟨s.data.map Char.toLower⟩

/-- Python str.upper(), at the character-list level. -/
def upperStr (s : String) : String := ⟨s.data.map Char.toUpper⟩

/-- Python str.endswith, at the character-list level. -/
def strEndsWith (s suf : String) : Bool := List.isSuffixOf suf.data s.data

/-- Glue table entity (mypy_boto3_glue TableTypeDef); fields other than
`Name` are optional in the TypedDef.  `StorageDescriptor` is bookkeeping
the catalog never inspects and is kept as an uninterpreted string. -/
structure TableTypeDef where
  Name : String
  DatabaseName : Option String := none
  TableType : Option String := none
  Owner : Option String := none
  Parameters : Option Properties := none
  StorageDescriptor : Option String := none
  Description : Option String := none
deriving DecidableEq

/-- Glue table input (mypy_boto3_glue TableInputTypeDef), as submitted to
create_table / update_table. -/
structure TableInputTypeDef where
  Name : String
  TableType : Option String := none
  Owner : Option String := none
  Parameters : Option Properties := none
  StorageDescriptor : Option String := none
  Description : Option String := none
deriving DecidableEq

/-- Glue database input (mypy_boto3_glue DatabaseInputTypeDef). -/
structure DatabaseInputTypeDef where
  Name : String
  Description : Option String := none
  LocationUri : Option String := none
  Parameters : Option Properties := none
deriving DecidableEq

/-- Glue database entity (mypy_boto3_glue DatabaseTypeDef). -/
structure DatabaseTypeDef where
  Name : String
  Description : Option String := none
  LocationUri : Option String := none
  Parameters : Option Properties := none
deriving DecidableEq

/-- Backend-native error signals of the Glue client.  `transport` stands
for any other failure of a call (network, throttling, access denied):
glue.py never catches those, so they propagate to the caller raw. -/
inductive GlueErr where
  | entityNotFound
  | alreadyExists
  | invalidInput
  | transport
deriving DecidableEq

/-- Python exceptions raised by the catalog layer.  `keyError` and
`assertionError` are the interpreter-level errors that escape the
subscript and assert statements of glue.py; `native e` is an uncaught
backend-native error propagating through the catalog. -/
inductive CatalogError where
  | noSuchTable (msg : String)
  | noSuchIcebergTable (msg : String)
  | noSuchProperty (msg : String)
  | noSuchNamespace (msg : String)
  | tableAlreadyExists (msg : String)
  | namespaceAlreadyExists (msg : String)
  | namespaceNotEmpty (msg : String)
  | valueError (msg : String)
  | keyError
  | assertionError
  | native (e : GlueErr)
deriving DecidableEq

/-- Backend calls issued by the catalog, for the call-trace. -/
inductive GlueCall where
  | getTable (db name : String)
  | createTable (db : String) (input : TableInputTypeDef)
  | deleteTable (db name : String)
  | getTables (db : String) (token : Option Nat)
  | getDatabase (name : String)
  | createDatabase (input : DatabaseInputTypeDef)
  | updateDatabase (name : String) (input : DatabaseInputTypeDef)
  | deleteDatabase (name : String)
  | getDatabases (token : Option Nat)
deriving DecidableEq

/-- Observable events of a catalog operation: backend calls plus metadata
file writes to the content store. -/
inductive Event where
  | glueCall (c : GlueCall)
  | fileWrite (location : String)
deriving DecidableEq

/-- The backend state: registered table entities keyed by
(database name, table name), database entities keyed by name, and the
content store as the list of metadata file locations written so far. -/
structure GlueState where
  tables : List ((String × String) × TableTypeDef)
  databases : List (String × DatabaseTypeDef)
  files : List String
deriving DecidableEq

/-! ### Entity translator (glue.py lines 68-119) -/

/-- glue.py `_construct_parameters` (line 68): the reserved parameters
stamped on a new table entity. -/
def _construct_parameters (metadata_location : String) : Properties :=
  [(TABLE_TYPE, upperStr ICEBERG), (METADATA_LOCATION, metadata_location)]

/-- glue.py `_construct_create_table_input` (line 72). -/
def _construct_create_table_input (table_name : String) (metadata_location : String)
    (properties : Properties) : TableInputTypeDef :=
  let table_input : TableInputTypeDef :=
    { Name := table_name
      TableType := some EXTERNAL_TABLE
      Parameters := some (_construct_parameters metadata_location) }
  match alGet "Description" properties with
  | some v => { table_input with Description := some v }
  | none => table_input

/-- glue.py `_construct_rename_table_input` (line 85): the destination
entity for a rename, copying every bookkeeping field of the source
verbatim and substituting only the name.  The Python
`assert glue_table["TableType"]` raises KeyError when the field is
missing and AssertionError when it is empty (falsy). -/
def _construct_rename_table_input (to_table_name : String) (glue_table : TableTypeDef) :
    Except CatalogError TableInputTypeDef :=
  match glue_table.TableType with
  | none => .error .keyError
  | some tt =>
    if tt = "" then .error .assertionError
    else
      .ok { Name := to_table_name
            TableType := some tt
            Owner := glue_table.Owner
            Parameters := glue_table.Parameters
            StorageDescriptor := glue_table.StorageDescriptor
            Description := glue_table.Description }

/-- One iteration of the loop of `_construct_database_input`: a
Description binding is promoted to the Description field, a LOCATION
binding to the LocationUri field, and any other binding is appended to
the parameters bag. -/
def databaseInputStep (acc : DatabaseInputTypeDef) (kv : String × String) :
    DatabaseInputTypeDef :=
  if kv.1 = "Description" then { acc with Description := some kv.2 }
  else if kv.1 = LOCATION then { acc with LocationUri := some kv.2 }
  else { acc with Parameters := some ((acc.Parameters.getD []) ++ [kv]) }

/-- glue.py `_construct_database_input` (line 108): a left fold of
`databaseInputStep` over the properties in insertion order, starting from
an entity with an empty parameters bag. -/
def _construct_database_input (database_name : String) (properties : Properties) :
    DatabaseInputTypeDef :=
  properties.foldl databaseInputStep { Name := database_name, Parameters := some [] }

/-- glue.py `_convert_glue_to_iceberg` (line 136), validation part.  The
Python function then loads and parses the metadata file at the validated
location through the file-access and codec collaborators (out of scope
here, per the spec) and wraps it in a Table; the embedding returns the
validated metadata location.  Line 137 subscripts `Parameters` (KeyError
when absent), lines 139-140 assert `DatabaseName` and `Parameters` are
truthy (AssertionError on an empty string or an empty dict). -/
def _convert_glue_to_iceberg (glue_table : TableTypeDef) : Except CatalogError String :=
  match glue_table.Parameters with
  | none => .error .keyError
  | some properties =>
    match glue_table.DatabaseName with
    | none => .error .keyError
    | some database_name =>
      if database_name = "" then .error .assertionError
      else if properties = [] then .error .assertionError
      else
        let table_name := glue_table.Name
        match alGet TABLE_TYPE properties with
        | none =>
          .error (.noSuchProperty ("Property " ++ TABLE_TYPE ++
            " missing, could not determine type: " ++ database_name ++ "." ++ table_name))
        | some glue_table_type =>
          if lowerStr glue_table_type ≠ ICEBERG then
            .error (.noSuchIcebergTable ("Property table_type is " ++ glue_table_type ++
              ", expected " ++ ICEBERG ++ ": " ++ database_name ++ "." ++ table_name))
          else
            match alGet METADATA_LOCATION properties with
            | none =>
              .error (.noSuchProperty ("Table property " ++ METADATA_LOCATION ++
                " is missing, cannot find metadata for: " ++ database_name ++ "." ++ table_name))
            | some metadata_location => .ok metadata_location

/-! ### Glue client primitives

The mock backend.  Reads never change state.  `delete_table` additionally
consults a fault table keyed by (database, table): an injected error makes
that delete call fail with the given backend-native signal without
touching the state (an injected `entityNotFound` models a concurrent
deletion observed by the backend).  This is how the spec's "simulate a
source-delete failure" scenarios are expressed. -/

/-- Per-target injected failures for delete_table calls. -/
abbrev Faults := List ((String × String) × GlueErr)

/-- glue.get_table. -/
def glueGetTable (st : GlueState) (db name : String) : Except GlueErr TableTypeDef :=
  match alGet (db, name) st.tables with
  | some t => .ok t
  | none => .error .entityNotFound

/-- The entity stored by the backend for a create_table input: the input
fields verbatim, plus the owning database name. -/
def tableOfInput (db : String) (input : TableInputTypeDef) : TableTypeDef :=
  { Name := input.Name
    DatabaseName := some db
    TableType := input.TableType
    Owner := input.Owner
    Parameters := input.Parameters
    StorageDescriptor := input.StorageDescriptor
    Description := input.Description }

/-- glue.create_table: AlreadyExists on a name conflict, EntityNotFound
when the database is absent, otherwise registers the entity. -/
def glueCreateTable (st : GlueState) (db : String) (input : TableInputTypeDef) :
    Except GlueErr GlueState :=
  if (alGet (db, input.Name) st.tables).isSome then .error .alreadyExists
  else if (alGet db st.databases).isNone then .error .entityNotFound
  else .ok { st with tables := st.tables ++ [((db, input.Name), tableOfInput db input)] }

/-- glue.delete_table, with fault injection (see `Faults`). -/
def glueDeleteTable (st : GlueState) (faults : Faults) (db name : String) :
    Except GlueErr GlueState :=
  match alGet (db, name) faults with
  | some e => .error e
  | none =>
    if (alGet (db, name) st.tables).isSome then
      .ok { st with tables := alErase (db, name) st.tables }
    else .error .entityNotFound

/-- The entity stored by the backend for a create_database input. -/
def databaseOfInput (input : DatabaseInputTypeDef) : DatabaseTypeDef :=
  { Name := input.Name
    Description := input.Description
    LocationUri := input.LocationUri
    Parameters := input.Parameters }

/-- glue.create_database. -/
def glueCreateDatabase (st : GlueState) (input : DatabaseInputTypeDef) :
    Except GlueErr GlueState :=
  if (alGet input.Name st.databases).isSome then .error .alreadyExists
  else .ok { st with databases := st.databases ++ [(input.Name, databaseOfInput input)] }

/-- glue.get_database. -/
def glueGetDatabase (st : GlueState) (name : String) : Except GlueErr DatabaseTypeDef :=
  match alGet name st.databases with
  | some d => .ok d
  | none => .error .entityNotFound

/-- glue.update_database: replaces the stored entity. -/
def glueUpdateDatabase (st : GlueState) (name : String) (input : DatabaseInputTypeDef) :
    Except GlueErr GlueState :=
  if (alGet name st.databases).isSome then
    .ok { st with databases :=
      st.databases.map (fun kv => if kv.1 = name then (name, databaseOfInput input) else kv) }
  else .error .entityNotFound

/-- glue.delete_database. -/
def glueDeleteDatabase (st : GlueState) (name : String) : Except GlueErr GlueState :=
  if (alGet name st.databases).isSome then
    .ok { st with databases := alErase name st.databases }
  else .error .entityNotFound

/-! ### Pagination (glue.py lines 407-424 and 436-447)

Both listing operations drain a paged backend result set with the same
while-loop: call get_tables / get_databases, first without a continuation
token and then with the token of the previous response, accumulating the
returned entries, until a response carries no token.  The backend's page
structure is modelled as the stream of pages it still has to serve; each
response consists of the first remaining page together with an opaque
continuation token that is present exactly when further pages remain.
(The call issued just before the loop, lines 410 / 437, has its response
discarded by the first loop iteration and contributes nothing to the
result.) -/

/-- The drain loop: extend the accumulated list with the entries of the
response (the first remaining page, or no entries when the backend has
none) and continue with the continuation token, stopping when the
response carries no token (no pages remain beyond the served one). -/
def drainPages {α : Type} : List (List α) → List α
  | [] => []
  | page :: rest =>
    match rest with
    | [] => page
    | _ => page ++ drainPages rest

/-! ### Catalog operations (class GlueCatalog)

Identifier parsing (`identifier_to_database_and_table`,
`identifier_to_database`) lives in the base catalog module outside the
sources; the operations here take the already resolved database and table
names.  Each operation returns its result, the backend state after the
operation, and the list of events (backend calls and file writes) it
issued, in order. -/

/-- glue.py `_create_glue_table` (line 172): translates the two expected
backend signals of create_table; anything else propagates raw. -/
def _create_glue_table (st : GlueState) (database_name table_name : String)
    (table_input : TableInputTypeDef) : Except CatalogError GlueState :=
  match glueCreateTable st database_name table_input with
  | .ok st' => .ok st'
  | .error .alreadyExists =>
    .error (.tableAlreadyExists ("Table " ++ database_name ++ "." ++ table_name ++
      " already exists"))
  | .error .entityNotFound =>
    .error (.noSuchNamespace ("Database " ++ database_name ++ " does not exist"))
  | .error e => .error (.native e)

/-- Modelled from the spec: `_resolve_table_location` of the base catalog
module (not under src) — when no location is given, one is derived
deterministically from the namespace/table default location policy. -/
def _resolve_table_location (location : Option String) (database_name table_name : String) :
    String :=
  match location with
  | some loc => loc
  | none => "warehouse/" ++ database_name ++ ".db/" ++ table_name

/-- Modelled from the spec: `_get_metadata_location` of the base catalog
module (not under src) — computes a metadata file path under the table
location. -/
def _get_metadata_location (location : String) : String :=
  location ++ "/metadata/00000-metadata.json"

/-- glue.py `load_table` (line 253): fetch the entity (EntityNotFound
becomes NoSuchTable) and validate/convert it.  The embedding returns the
validated metadata location (see `_convert_glue_to_iceberg`). -/
def load_table (st : GlueState) (database_name table_name : String) :
    Except CatalogError String × List Event :=
  match glueGetTable st database_name table_name with
  | .error .entityNotFound =>
    (.error (.noSuchTable ("Table does not exist: " ++ database_name ++ "." ++ table_name)),
      [.glueCall (.getTable database_name table_name)])
  | .error e => (.error (.native e), [.glueCall (.getTable database_name table_name)])
  | .ok t => (_convert_glue_to_iceberg t, [.glueCall (.getTable database_name table_name)])

/-- glue.py `create_table` (line 180): resolve the location, compute the
metadata location, write the metadata file (the write is recorded in the
content store; building the metadata object from schema/spec/order is the
out-of-scope codec collaborator), then register the entity and re-load the
table from the backend. -/
def create_table (st : GlueState) (database_name table_name : String)
    (location : Option String) (properties : Properties) :
    Except CatalogError String × GlueState × List Event :=
  let loc := _resolve_table_location location database_name table_name
  let metadata_location := _get_metadata_location loc
  let st1 : GlueState := { st with files := st.files ++ [metadata_location] }
  let table_input := _construct_create_table_input table_name metadata_location properties
  match _create_glue_table st1 database_name table_name table_input with
  | .error e =>
    (.error e, st1,
      [.fileWrite metadata_location, .glueCall (.createTable database_name table_input)])
  | .ok st2 =>
    let loaded := load_table st2 database_name table_name
    (loaded.1, st2,
      [.fileWrite metadata_location, .glueCall (.createTable database_name table_input)] ++
        loaded.2)

/-- glue.py `drop_table` (line 277): delete the entity, translating
EntityNotFound to NoSuchTable; other backend failures propagate raw.  A
failed call leaves the state unchanged. -/
def drop_table (st : GlueState) (faults : Faults) (database_name table_name : String) :
    Except CatalogError Unit × GlueState × List Event :=
  match glueDeleteTable st faults database_name table_name with
  | .ok st' => (.ok (), st', [.glueCall (.deleteTable database_name table_name)])
  | .error .entityNotFound =>
    (.error (.noSuchTable ("Table does not exist: " ++ database_name ++ "." ++ table_name)),
      st, [.glueCall (.deleteTable database_name table_name)])
  | .error e => (.error (.native e), st, [.glueCall (.deleteTable database_name table_name)])

/-- glue.py `rename_table` (line 293), the three-phase protocol: fetch and
validate the source entity (the two validation failure kinds are re-raised
with rename-specific messages, any other error propagates), register the
destination entity built by `_construct_rename_table_input`, then delete
the source.  When the source delete fails, a compensating delete of the
destination is attempted: on its success a ValueError wrapping the
original failure is raised; when it raises NoSuchTable — the only kind the
rollback catches — a ValueError instructing manual cleanup is raised; any
other rollback failure propagates raw.  On success the table is re-loaded
under the destination identifier. -/
def rename_table (st : GlueState) (faults : Faults)
    (from_database_name from_table_name to_database_name to_table_name : String) :
    Except CatalogError String × GlueState × List Event :=
  match glueGetTable st from_database_name from_table_name with
  | .error .entityNotFound =>
    (.error (.noSuchTable ("Table does not exist: " ++ from_database_name ++ "." ++
      from_table_name)), st, [.glueCall (.getTable from_database_name from_table_name)])
  | .error e =>
    (.error (.native e), st, [.glueCall (.getTable from_database_name from_table_name)])
  | .ok glue_table =>
    let tr0 := [Event.glueCall (.getTable from_database_name from_table_name)]
    match _convert_glue_to_iceberg glue_table with
    | .error (.noSuchProperty _) =>
      (.error (.noSuchProperty ("Failed to rename table " ++ from_database_name ++ "." ++
        from_table_name ++ " since it is missing required properties")), st, tr0)
    | .error (.noSuchIcebergTable _) =>
      (.error (.noSuchIcebergTable ("Failed to rename table " ++ from_database_name ++ "." ++
        from_table_name ++ " since it is not a valid iceberg table")), st, tr0)
    | .error e => (.error e, st, tr0)
    | .ok _ =>
      match _construct_rename_table_input to_table_name glue_table with
      | .error e => (.error e, st, tr0)
      | .ok rename_table_input =>
        let tr1 := tr0 ++ [Event.glueCall (.createTable to_database_name rename_table_input)]
        match _create_glue_table st to_database_name to_table_name rename_table_input with
        | .error e => (.error e, st, tr1)
        | .ok st1 =>
          match drop_table st1 faults from_database_name from_table_name with
          | (.ok _, st2, trd) =>
            let loaded := load_table st2 to_database_name to_table_name
            (loaded.1, st2, tr1 ++ trd ++ loaded.2)
          | (.error _, st2, trd) =>
            match drop_table st2 faults to_database_name to_table_name with
            | (.ok _, st3, trr) =>
              (.error (.valueError ("Failed to drop old table " ++ from_database_name ++
                "." ++ from_table_name ++ ". " ++ "Rolled back table creation for " ++
                to_database_name ++ "." ++ to_table_name ++ ".")), st3, tr1 ++ trd ++ trr)
            | (.error (.noSuchTable _), st3, trr) =>
              (.error (.valueError ("Failed to drop old table " ++ from_database_name ++
                "." ++ from_table_name ++ ". " ++ "Failed to roll back table creation for " ++
                to_database_name ++ "." ++ to_table_name ++ ". " ++
                "Please clean up manually")), st3, tr1 ++ trd ++ trr)
            | (.error e, st3, trr) => (.error e, st3, tr1 ++ trd ++ trr)

/-- glue.py `create_namespace` (line 354). -/
def create_namespace (st : GlueState) (database_name : String) (properties : Properties) :
    Except CatalogError Unit × GlueState × List Event :=
  let database_input := _construct_database_input database_name properties
  match glueCreateDatabase st database_input with
  | .ok st' => (.ok (), st', [.glueCall (.createDatabase database_input)])
  | .error .alreadyExists =>
    (.error (.namespaceAlreadyExists ("Database " ++ database_name ++ " already exists")),
      st, [.glueCall (.createDatabase database_input)])
  | .error e => (.error (.native e), st, [.glueCall (.createDatabase database_input)])

/-- The table entities of one database, in registration order. -/
def tablesOfDb (st : GlueState) (database_name : String) : List TableTypeDef :=
  (st.tables.filter (fun kv => kv.1.1 = database_name)).map (fun kv => kv.2)

/-- glue.py `list_tables` (line 394): drains the paged get_tables results
(this backend serves the database's tables as a single page; the
pre-loop call of line 410 is the first of the two identical calls in the
trace, its response being discarded by the loop) and returns
(database, name) identifiers.  A missing database surfaces as
NoSuchNamespace from the first call. -/
def list_tables (st : GlueState) (database_name : String) :
    Except CatalogError (List (String × String)) × List Event :=
  if (alGet database_name st.databases).isNone then
    (.error (.noSuchNamespace ("Database does not exist: " ++ database_name)),
      [.glueCall (.getTables database_name none)])
  else
    (.ok ((drainPages [tablesOfDb st database_name]).map (fun t => (database_name, t.Name))),
      [.glueCall (.getTables database_name none), .glueCall (.getTables database_name none)])

/-- glue.py `drop_namespace` (line 371): list the member tables first
(re-raising NoSuchNamespace when the database is missing), fail
NamespaceNotEmpty when any member exists, otherwise delete the database
entity (that last call has no handler: a backend failure there would
propagate raw). -/
def drop_namespace (st : GlueState) (database_name : String) :
    Except CatalogError Unit × GlueState × List Event :=
  match list_tables st database_name with
  | (.error (.noSuchNamespace _), tr) =>
    (.error (.noSuchNamespace ("Database does not exist: " ++ database_name)), st, tr)
  | (.error e, tr) => (.error e, st, tr)
  | (.ok table_list, tr) =>
    if table_list.length > 0 then
      (.error (.namespaceNotEmpty ("Database " ++ database_name ++ " is not empty")), st, tr)
    else
      match glueDeleteDatabase st database_name with
      | .ok st' => (.ok (), st', tr ++ [.glueCall (.deleteDatabase database_name)])
      | .error e => (.error (.native e), st, tr ++ [.glueCall (.deleteDatabase database_name)])

/-- Modelled from the spec: `identifier_to_tuple` of the base catalog
module (not under src) — splits a string identifier on the structural
separator into its segments. -/
def identifier_to_tuple (s : String) : List String := s.splitOn "."

/-- The database entities of the backend, in registration order. -/
def databasesOf (st : GlueState) : List DatabaseTypeDef := st.databases.map (fun kv => kv.2)

/-- glue.py `list_namespaces` (line 426): hierarchical namespaces are
unsupported, so a truthy (non-empty) namespace argument returns the empty
list without issuing any backend call; only the empty argument drains the
paged get_databases results (served here as a single page; the pre-loop
call of line 437 is the first of the two identical calls). -/
def list_namespaces (st : GlueState) (ns : List String) :
    Except CatalogError (List (List String)) × List Event :=
  if ns ≠ [] then (.ok [], [])
  else
    (.ok ((drainPages [databasesOf st]).map (fun d => identifier_to_tuple d.Name)),
      [.glueCall (.getDatabases none), .glueCall (.getDatabases none)])

/-- glue.py `load_namespace_properties` (line 449), translation part
(lines 471-477): the Parameters bag copied as a dict, then the
LocationUri and Description backend fields demoted into the "location"
and "Description" keys when present. -/
def propertiesOfDatabase (database : DatabaseTypeDef) : Properties :=
  let properties := database.Parameters.getD []
  let properties :=
    match database.LocationUri with
    | some v => dictInsert properties "location" v
    | none => properties
  match database.Description with
  | some v => dictInsert properties "Description" v
  | none => properties

/-- glue.py `load_namespace_properties` (line 449): fetch the database
entity (EntityNotFound and InvalidInput both become NoSuchNamespace) and
translate it to the Properties model. -/
def load_namespace_properties (st : GlueState) (database_name : String) :
    Except CatalogError Properties × List Event :=
  match glueGetDatabase st database_name with
  | .error .entityNotFound =>
    (.error (.noSuchNamespace ("Database does not exist: " ++ database_name)),
      [.glueCall (.getDatabase database_name)])
  | .error .invalidInput =>
    (.error (.noSuchNamespace ("Invalid input for namespace " ++ database_name)),
      [.glueCall (.getDatabase database_name)])
  | .error e => (.error (.native e), [.glueCall (.getDatabase database_name)])
  | .ok database => (.ok (propertiesOfDatabase database), [.glueCall (.getDatabase database_name)])

/-- Summary of a namespace property update, partitioning the affected keys. -/
structure PropertiesUpdateSummary where
  removed : List String
  updated : List String
  missing : List String
deriving DecidableEq

/-- Modelled from the spec: `_get_updated_props_and_update_summary` of the
base catalog module (not under src) — fails AmbiguousUpdate (a ValueError)
when a key appears in both removals and updates; otherwise removes the
removal keys, overlays the update keys, and returns the summary
partitioning affected keys into updated / removed / requested-but-missing
together with the full reconciled properties map. -/
def _get_updated_props_and_update_summary (current_properties : Properties)
    (removals : List String) (updates : Properties) :
    Except CatalogError (PropertiesUpdateSummary × Properties) :=
  if removals.any (fun k => (alGet k updates).isSome) then
    .error (.valueError "Updates and deletes have an overlap")
  else
    let removed := removals.filter (fun k => (alGet k current_properties).isSome)
    let missing := removals.filter (fun k => (alGet k current_properties).isNone)
    let after_removals :=
      current_properties.filter (fun kv => !(removals.contains kv.1))
    let updated_properties := updates.foldl (fun acc kv => dictInsert acc kv.1 kv.2) after_removals
    .ok ({ removed := removed, updated := updates.map (fun kv => kv.1), missing := missing },
      updated_properties)

/-- glue.py `update_namespace_properties` (line 479): load the current
properties, reconcile them against removals/updates (the overlap check
fails before any backend write), then push the full reconciled map back
with update_database. -/
def update_namespace_properties (st : GlueState) (database_name : String)
    (removals : List String) (updates : Properties) :
    Except CatalogError PropertiesUpdateSummary × GlueState × List Event :=
  match load_namespace_properties st database_name with
  | (.error e, tr) => (.error e, st, tr)
  | (.ok current_properties, tr) =>
    match _get_updated_props_and_update_summary current_properties removals updates with
    | .error e => (.error e, st, tr)
    | .ok (properties_update_summary, updated_properties) =>
      let database_input := _construct_database_input database_name updated_properties
      match glueUpdateDatabase st database_name database_input with
      | .ok st' =>
        (.ok properties_update_summary, st',
          tr ++ [.glueCall (.updateDatabase database_name database_input)])
      | .error e =>
        (.error (.native e), st,
          tr ++ [.glueCall (.updateDatabase database_name database_input)])

/-! ### Observation helpers -/

/-- The domain error `drop_table` surfaces for an injected backend failure:
EntityNotFound is translated to NoSuchTable, everything else propagates
raw. -/
def dropFaultErr (database_name table_name : String) : GlueErr → CatalogError
  | .entityNotFound =>
    .noSuchTable ("Table does not exist: " ++ database_name ++ "." ++ table_name)
  | e => .native e

/-- Whether a load/convert result failed with the NotThisFormat kind
(NoSuchIcebergTableError). -/
def resultIsNotThisFormat : Except CatalogError String → Bool
  | .error (.noSuchIcebergTable _) => true
  | _ => false

/-- Whether an operation result is a terminal error whose message
instructs manual cleanup. -/
def resultInstructsManualCleanup : Except CatalogError String → Bool
  | .error (.valueError m) => strEndsWith m "Please clean up manually"
  | _ => false

/-- Whether an event is a backend delete call targeting the given table. -/
def deletesTable (database_name table_name : String) : Event → Bool
  | .glueCall (.deleteTable d n) => d == database_name && n == table_name
  | _ => false

/-- Whether an event is a backend update_database call. -/
def isUpdateDatabaseCall : Event → Bool
  | .glueCall (.updateDatabase _ _) => true
  | _ => false

/-! ### Sample inputs for witnesses and counterexamples -/

/-- A table entity whose properties bag holds a metadata location but no
table-type marker. -/
def gtMissingTypeMarker : TableTypeDef :=
  { Name := "tbl", DatabaseName := some "db",
    Parameters := some [(METADATA_LOCATION, "s3://bucket/metadata.json")] }

/-- A well-formed Iceberg table entity. -/
def gtValidIceberg : TableTypeDef :=
  { Name := "tbl", DatabaseName := some "db",
    Parameters := some [(TABLE_TYPE, "ICEBERG"), (METADATA_LOCATION, "s3://b/m.json")] }

/-- A source entity with every bookkeeping field present. -/
def gtRenameSource : TableTypeDef :=
  { Name := "t1", DatabaseName := some "db", TableType := some "EXTERNAL_TABLE",
    Owner := some "owner", Parameters := some [("table_type", "ICEBERG")],
    StorageDescriptor := some "sd-columns", Description := some "source table" }

/-- A fully valid Iceberg source table entity registered as db.t1. -/
def gtSourceTable : TableTypeDef :=
  { Name := "t1", DatabaseName := some "db", TableType := some "EXTERNAL_TABLE",
    Owner := some "owner",
    Parameters := some [(TABLE_TYPE, "ICEBERG"), (METADATA_LOCATION, "s3://b/t1.json")],
    StorageDescriptor := some "sd-columns", Description := some "t1 table" }

/-- A backend holding one database "db" with the one table db.t1. -/
def stOneTable : GlueState :=
  { tables := [(("db", "t1"), gtSourceTable)],
    databases := [("db", { Name := "db" })],
    files := [] }

/-- A backend holding the non-empty database "db" (with table db.t1) and
the empty database "emptydb". -/
def stTwoDbs : GlueState :=
  { tables := [(("db", "t1"), gtSourceTable)],
    databases := [("db", { Name := "db" }), ("emptydb", { Name := "emptydb" })],
    files := [] }

/-- Injected delete failures for both the source db.t1 and the
destination db.t2. -/
def faultsBoth : Faults :=
  [(("db", "t1"), .transport), (("db", "t2"), .transport)]

/-- An injected delete failure for the source db.t1 only. -/
def faultsSourceOnly : Faults := [(("db", "t1"), .transport)]

/-! ### Association-list lemmas -/

theorem alGet_append_left {κ β : Type} [DecidableEq κ] (k : κ) (l1 l2 : List (κ × β)) (v : β)
    (h : alGet k l1 = some v) : alGet k (l1 ++ l2) = some v := by
  induction l1 with
  | nil => simp [alGet] at h
  | cons kv l ih =>
    by_cases hk : kv.1 = k
    · simp_all [alGet]
    · simp [alGet, hk] at h ⊢
      exact ih h

theorem alGet_append_right {κ β : Type} [DecidableEq κ] (k : κ) (l1 l2 : List (κ × β))
    (h : alGet k l1 = none) : alGet k (l1 ++ l2) = alGet k l2 := by
  induction l1 with
  | nil => simp [alGet]
  | cons kv l ih =>
    by_cases hk : kv.1 = k
    · simp [alGet, hk] at h
    · simp [alGet, hk] at h ⊢
      exact ih h

theorem alGet_alErase_self {κ β : Type} [DecidableEq κ] (k : κ) (l : List (κ × β)) :
    alGet k (alErase k l) = none := by
  induction l with
  | nil => simp [alGet, alErase]
  | cons kv l ih =>
    by_cases hk : kv.1 = k
    · simp [alErase, hk, ih]
    · simp [alErase, alGet, hk, ih]

theorem alGet_alErase_ne {κ β : Type} [DecidableEq κ] (k k' : κ) (l : List (κ × β))
    (h : k' ≠ k) : alGet k' (alErase k l) = alGet k' l := by
  induction l with
  | nil => simp [alGet, alErase]
  | cons kv l ih =>
    by_cases hk : kv.1 = k
    · have hkk : k ≠ k' := Ne.symm h
      simp [alErase, alGet, hk, hkk, ih]
    · simp [alErase, alGet, hk, ih]

theorem alGet_eq_none_of_not_mem {κ β : Type} [DecidableEq κ] (k : κ) (l : List (κ × β))
    (h : k ∉ l.map Prod.fst) : alGet k l = none := by
  induction l with
  | nil => simp [alGet]
  | cons kv l ih =>
    simp only [List.map_cons, List.mem_cons] at h
    push_neg at h
    have hk : kv.1 ≠ k := fun he => h.1 he.symm
    simp [alGet, hk, ih h.2]

theorem alGet_map_overwrite_self (l : Properties) (k v : String)
    (h : (alGet k l).isSome = true) :
    alGet k (l.map (fun kv => if kv.1 = k then (k, v) else kv)) = some v := by
  induction l with
  | nil => simp [alGet] at h
  | cons kv l ih =>
    by_cases hk : kv.1 = k
    · simp [alGet, hk]
    · simp only [alGet, if_neg hk] at h
      simp [alGet, hk, ih h]

theorem alGet_map_overwrite_ne (l : Properties) (k v k' : String) (h : k' ≠ k) :
    alGet k' (l.map (fun kv => if kv.1 = k then (k, v) else kv)) = alGet k' l := by
  induction l with
  | nil => simp [alGet]
  | cons kv l ih =>
    by_cases hk : kv.1 = k
    · have h1 : (k : String) ≠ k' := Ne.symm h
      have h2 : kv.1 ≠ k' := by rw [hk]; exact h1
      simp [alGet, hk, h1, h2, ih]
    · simp [alGet, hk, ih]

theorem alGet_dictInsert (l : Properties) (k v k' : String) :
    alGet k' (dictInsert l k v) = if k' = k then some v else alGet k' l := by
  unfold dictInsert
  by_cases hs : (alGet k l).isSome = true
  · rw [if_pos hs]
    by_cases hk' : k' = k
    · subst hk'
      rw [if_pos rfl]
      exact alGet_map_overwrite_self l k' v hs
    · rw [if_neg hk']
      exact alGet_map_overwrite_ne l k v k' hk'
  · rw [if_neg hs]
    have hnone : alGet k l = none := Option.not_isSome_iff_eq_none.mp hs
    by_cases hk' : k' = k
    · subst hk'
      rw [if_pos rfl, alGet_append_right k' l [(k', v)] hnone]
      simp [alGet]
    · rw [if_neg hk']
      cases hc : alGet k' l with
      | none =>
        rw [alGet_append_right k' l [(k, v)] hc]
        have hkk : ¬(k = k') := fun he => hk' he.symm
        simp [alGet, hkk]
      | some w =>
        rw [alGet_append_left k' l [(k, v)] w hc]

theorem alGet_filter_key (p : String → Bool) (l : Properties) (k : String) :
    alGet k (l.filter (fun kv => p kv.1)) = if p k then alGet k l else none := by
  induction l with
  | nil => simp [alGet]
  | cons kv l ih =>
    by_cases hk : kv.1 = k
    · subst hk
      cases hp : p kv.1 <;> simp [alGet, hp, ih]
    · cases hp : p kv.1 <;> simp [alGet, hp, hk, ih]

theorem alGet_filter_and (props : Properties) (k : String) :
    alGet k (props.filter (fun kv => !(kv.1 == "Description") && !(kv.1 == "location"))) =
      if k = "Description" ∨ k = "location" then none else alGet k props := by
  by_cases hk : k = "Description" ∨ k = "location"
  · rw [if_pos hk]
    induction props with
    | nil => simp [alGet]
    | cons kv rest ih =>
      by_cases h1 : kv.1 = "Description"
      · simp [List.filter_cons, h1, ih]
      · by_cases h2 : kv.1 = "location"
        · simp [List.filter_cons, h1, h2, ih]
        · have hne : kv.1 ≠ k := by
            rcases hk with h | h
            · rw [h]; exact h1
            · rw [h]; exact h2
          simp [List.filter_cons, h1, h2, alGet, hne, ih]
  · rw [if_neg hk]
    push_neg at hk
    obtain ⟨hk1, hk2⟩ := hk
    induction props with
    | nil => rfl
    | cons kv rest ih =>
      by_cases h1 : kv.1 = "Description"
      · have hne : ("Description" : String) ≠ k := fun he => hk1 he.symm
        simp [List.filter_cons, h1, alGet, hne, ih]
      · by_cases h2 : kv.1 = "location"
        · have hne : ("location" : String) ≠ k := fun he => hk2 he.symm
          simp [List.filter_cons, h1, h2, alGet, hne, ih]
        · simp [List.filter_cons, h1, h2, alGet, ih]

/-! ### Drain and translator lemmas -/

theorem drainPages_eq_join {α : Type} (pages : List (List α)) :
    drainPages pages = pages.flatten := by
  induction pages with
  | nil => rfl
  | cons page rest ih =>
    cases rest with
    | nil => simp [drainPages]
    | cons q qs =>
      simp only [drainPages] at ih ⊢
      rw [ih]
      simp [List.flatten]

/-- The name of a create-table input is the requested table name,
whatever the optional Description promotion did. -/
theorem construct_create_table_input_Name (table_name metadata_location : String)
    (properties : Properties) :
    (_construct_create_table_input table_name metadata_location properties).Name =
      table_name := by
  unfold _construct_create_table_input
  cases alGet "Description" properties <;> rfl

/-- Closed form of the `_construct_database_input` fold, for a properties
map with unique keys (the dict discipline): the promoted fields take the
values of their keys and the parameters bag keeps every other binding in
order. -/
theorem construct_database_input_eq (database_name : String) (props : Properties)
    (h : (props.map Prod.fst).Nodup) :
    _construct_database_input database_name props =
      { Name := database_name
        Description := alGet "Description" props
        LocationUri := alGet LOCATION props
        Parameters := some (props.filter
          (fun kv => !(kv.1 == "Description" || kv.1 == LOCATION))) } := by
  unfold _construct_database_input
  suffices hgen : ∀ (props : Properties), (props.map Prod.fst).Nodup →
      ∀ (name : String) (desc locu : Option String) (ps : Properties),
      props.foldl databaseInputStep
        { Name := name, Description := desc, LocationUri := locu, Parameters := some ps } =
        { Name := name
          Description := match alGet "Description" props with
            | some v => some v
            | none => desc
          LocationUri := match alGet LOCATION props with
            | some v => some v
            | none => locu
          Parameters := some (ps ++ props.filter
            (fun kv => !(kv.1 == "Description" || kv.1 == LOCATION))) } by
    have := hgen props h database_name none none []
    rw [this]
    cases hd : alGet "Description" props <;> cases hl : alGet LOCATION props <;> simp
  intro props h
  induction props with
  | nil => intro name desc locu ps; simp [alGet]
  | cons kv rest ih =>
    intro name desc locu ps
    simp only [List.map_cons, List.nodup_cons] at h
    obtain ⟨hmem, hnd⟩ := h
    have hrest := ih hnd
    by_cases h1 : kv.1 = "Description"
    · have hnone : alGet "Description" rest = none := by
        apply alGet_eq_none_of_not_mem
        rw [← h1]; exact hmem
      have h2 : kv.1 ≠ LOCATION := by rw [h1]; decide
      simp only [List.foldl_cons, databaseInputStep, if_pos h1]
      rw [hrest name (some kv.2) locu ps]
      simp [alGet, h1, h2, hnone, LOCATION]
    · by_cases h2 : kv.1 = LOCATION
      · have hnone : alGet LOCATION rest = none := by
          apply alGet_eq_none_of_not_mem
          rw [← h2]; exact hmem
        simp only [List.foldl_cons, databaseInputStep, if_neg h1, if_pos h2]
        rw [hrest name desc (some kv.2) ps]
        simp only [LOCATION] at hnone
        simp [alGet, h1, h2, hnone, LOCATION]
      · simp only [List.foldl_cons, databaseInputStep, if_neg h1, if_neg h2,
          Option.getD_some]
        rw [hrest name desc locu (ps ++ [kv])]
        simp [alGet, h1, h2, List.append_assoc]

/-- A drop_table call whose target carries an injected backend failure:
the call fails with the translated error and leaves the state
unchanged. -/
theorem drop_table_with_fault (st : GlueState) (faults : Faults) (db n : String)
    (fe : GlueErr) (h : alGet (db, n) faults = some fe) :
    drop_table st faults db n =
      (.error (dropFaultErr db n fe), st, [.glueCall (.deleteTable db n)]) := by
  cases fe <;> simp [drop_table, glueDeleteTable, h, dropFaultErr]

/-- A drop_table call with no injected failure on a registered table:
the entity is deleted. -/
theorem drop_table_present (st : GlueState) (faults : Faults) (db n : String)
    (h : alGet (db, n) faults = none) (h2 : (alGet (db, n) st.tables).isSome = true) :
    drop_table st faults db n =
      (.ok (), { st with tables := alErase (db, n) st.tables },
        [.glueCall (.deleteTable db n)]) := by
  simp [drop_table, glueDeleteTable, h, h2]

/-! ### Claim theorems -/

/-- C2 (counterexample): on a backend table entity whose properties bag
lacks the table-type marker (but does hold a metadata location), the
claim says conversion fails with the NotThisFormat kind; the code fails
with the MissingProperty kind (NoSuchPropertyException, glue.py line 144)
instead. -/
theorem convert_missing_type_marker_counterexample :
    alGet TABLE_TYPE [(METADATA_LOCATION, "s3://bucket/metadata.json")] = none ∧
    _convert_glue_to_iceberg gtMissingTypeMarker =
      .error (.noSuchProperty
        "Property table_type missing, could not determine type: db.tbl") ∧
    resultIsNotThisFormat (_convert_glue_to_iceberg gtMissingTypeMarker) = false :=
  ⟨by decide, rfl, rfl⟩

/-- C2 (amended): validating a backend table entity checks the table-type
marker first: an absent marker fails with the MissingProperty kind (not
NotThisFormat); a present but case-insensitively mismatched marker fails
with the NotThisFormat kind; after the marker check, an absent
metadata-location property fails with the MissingProperty kind; when the
marker matches and the location is present, validation succeeds and
yields the stored metadata location. -/
theorem convert_glue_validation_amended (gt : TableTypeDef) (props : Properties)
    (db : String) (hp : gt.Parameters = some props) (hdb : gt.DatabaseName = some db)
    (hdb' : db ≠ "") (hne : props ≠ []) :
    (alGet TABLE_TYPE props = none →
      _convert_glue_to_iceberg gt = .error (.noSuchProperty ("Property " ++ TABLE_TYPE ++
        " missing, could not determine type: " ++ db ++ "." ++ gt.Name))) ∧
    (∀ tt, alGet TABLE_TYPE props = some tt → lowerStr tt ≠ ICEBERG →
      _convert_glue_to_iceberg gt = .error (.noSuchIcebergTable ("Property table_type is " ++
        tt ++ ", expected " ++ ICEBERG ++ ": " ++ db ++ "." ++ gt.Name))) ∧
    (∀ tt, alGet TABLE_TYPE props = some tt → lowerStr tt = ICEBERG →
      alGet METADATA_LOCATION props = none →
      _convert_glue_to_iceberg gt = .error (.noSuchProperty ("Table property " ++
        METADATA_LOCATION ++ " is missing, cannot find metadata for: " ++ db ++ "." ++
        gt.Name))) ∧
    (∀ tt loc, alGet TABLE_TYPE props = some tt → lowerStr tt = ICEBERG →
      alGet METADATA_LOCATION props = some loc →
      _convert_glue_to_iceberg gt = .ok loc) := by
  simp only [_convert_glue_to_iceberg, hp, hdb, if_neg hdb', if_neg hne]
  refine ⟨?_, ?_, ?_, ?_⟩
  · intro h
    rw [h]
  · intro tt h1 h2
    rw [h1]
    simp only [if_pos h2]
  · intro tt h1 h2 h3
    rw [h1]
    simp only [h2, if_neg (show ¬ (ICEBERG ≠ ICEBERG) from fun hc => hc rfl)]
    rw [h3]
  · intro tt loc h1 h2 h3
    rw [h1]
    simp only [h2, if_neg (show ¬ (ICEBERG ≠ ICEBERG) from fun hc => hc rfl)]
    rw [h3]

theorem convert_glue_validation_amended_witness :
    gtValidIceberg.Parameters =
      some [(TABLE_TYPE, "ICEBERG"), (METADATA_LOCATION, "s3://b/m.json")] ∧
    gtValidIceberg.DatabaseName = some "db" ∧
    ("db" : String) ≠ "" ∧
    ([(TABLE_TYPE, "ICEBERG"), (METADATA_LOCATION, "s3://b/m.json")] : Properties) ≠ [] ∧
    _convert_glue_to_iceberg gtValidIceberg = .ok "s3://b/m.json" :=
  ⟨rfl, rfl, by decide, by decide,
    (convert_glue_validation_amended gtValidIceberg
      [(TABLE_TYPE, "ICEBERG"), (METADATA_LOCATION, "s3://b/m.json")] "db"
      rfl rfl (by decide) (by decide)).2.2.2 "ICEBERG" "s3://b/m.json"
      (by decide) (by decide) (by decide)⟩

/-- C3 (confirmed): the destination entity built for a rename carries the
source entity's backend bookkeeping fields — table type, owner,
properties bag, storage descriptor, description — verbatim, each present
exactly when present on the source, with only the name replaced by the
destination name; the input record has no other field, so nothing else is
altered. -/
theorem rename_input_copies_bookkeeping (to_table_name : String) (gt : TableTypeDef)
    (tt : String) (h1 : gt.TableType = some tt) (h2 : tt ≠ "") :
    _construct_rename_table_input to_table_name gt =
      .ok { Name := to_table_name
            TableType := gt.TableType
            Owner := gt.Owner
            Parameters := gt.Parameters
            StorageDescriptor := gt.StorageDescriptor
            Description := gt.Description } := by
  simp only [_construct_rename_table_input, h1, if_neg h2]

theorem rename_input_copies_bookkeeping_witness :
    gtRenameSource.TableType = some "EXTERNAL_TABLE" ∧
    ("EXTERNAL_TABLE" : String) ≠ "" ∧
    _construct_rename_table_input "t2" gtRenameSource =
      .ok { Name := "t2", TableType := gtRenameSource.TableType,
            Owner := gtRenameSource.Owner, Parameters := gtRenameSource.Parameters,
            StorageDescriptor := gtRenameSource.StorageDescriptor,
            Description := gtRenameSource.Description } :=
  ⟨rfl, by decide,
    rename_input_copies_bookkeeping "t2" gtRenameSource "EXTERNAL_TABLE" rfl (by decide)⟩

/-- C4 (confirmed): translating a properties map to a namespace entity
(`_construct_database_input`, the backend storing the input fields
verbatim via `databaseOfInput`) and translating the entity back
(`propertiesOfDatabase`, the pure part of load_namespace_properties)
restores the original map: every key looks up to its original value.
Lookup-extensional equality is Python dict equality (insertion order is
irrelevant to `==` on dicts), so the round trip is lossless. -/
theorem namespace_properties_round_trip (database_name : String) (props : Properties)
    (h : (props.map Prod.fst).Nodup) (k : String) :
    alGet k (propertiesOfDatabase (databaseOfInput
      (_construct_database_input database_name props))) = alGet k props := by
  rw [construct_database_input_eq database_name props h]
  unfold databaseOfInput propertiesOfDatabase
  cases hl : alGet LOCATION props <;> cases hd : alGet "Description" props <;>
    simp only [hl, hd, Option.getD_some, alGet_dictInsert, alGet_filter_key] <;>
    by_cases hk1 : k = "Description" <;> by_cases hk2 : k = LOCATION <;>
    simp_all [LOCATION, alGet_filter_and, alGet_dictInsert]

/-- C4 witness: the round trip evaluated at a concrete map using both
promoted keys and ordinary keys. -/
theorem namespace_properties_round_trip_witness :
    (([("a", "1"), ("Description", "d"), ("b", "2"), ("location", "l")] :
      Properties).map Prod.fst).Nodup ∧
    alGet "b" (propertiesOfDatabase (databaseOfInput (_construct_database_input "db"
      [("a", "1"), ("Description", "d"), ("b", "2"), ("location", "l")]))) =
      alGet "b" [("a", "1"), ("Description", "d"), ("b", "2"), ("location", "l")] :=
  ⟨by decide, namespace_properties_round_trip "db"
    [("a", "1"), ("Description", "d"), ("b", "2"), ("location", "l")] (by decide) "b"⟩

/-- C5 (confirmed): when removals and updates share a key, updating the
properties of an existing namespace fails with the AmbiguousUpdate error
(a ValueError raised by the reconciliation pass) before any backend
write: the returned backend state is the initial one and the trace holds
no update_database call — only the get_database read issued by the
initial properties load. -/
theorem update_properties_overlap_no_write (st : GlueState) (database_name : String)
    (removals : List String) (updates : Properties) (d : DatabaseTypeDef)
    (hdb : alGet database_name st.databases = some d)
    (hovl : removals.any (fun k => (alGet k updates).isSome) = true) :
    update_namespace_properties st database_name removals updates =
      (.error (.valueError "Updates and deletes have an overlap"), st,
        [.glueCall (.getDatabase database_name)]) ∧
    ((update_namespace_properties st database_name removals updates).2.2.any
      isUpdateDatabaseCall) = false := by
  have hmain : update_namespace_properties st database_name removals updates =
      (.error (.valueError "Updates and deletes have an overlap"), st,
        [.glueCall (.getDatabase database_name)]) := by
    simp only [update_namespace_properties, load_namespace_properties, glueGetDatabase,
      hdb, _get_updated_props_and_update_summary, hovl, if_true]
  refine ⟨hmain, ?_⟩
  rw [hmain]
  rfl

/-- C5 witness: overlapping removal and update of the key "a" on the
existing namespace "db". -/
theorem update_properties_overlap_no_write_witness :
    alGet "db" stTwoDbs.databases = some { Name := "db" } ∧
    (["a"].any (fun k => (alGet k ([("a", "2")] : Properties)).isSome)) = true ∧
    update_namespace_properties stTwoDbs "db" ["a"] [("a", "2")] =
      (.error (.valueError "Updates and deletes have an overlap"), stTwoDbs,
        [.glueCall (.getDatabase "db")]) :=
  ⟨by decide, by decide,
    (update_properties_overlap_no_write stTwoDbs "db" ["a"] [("a", "2")] { Name := "db" }
      (by decide) (by decide)).1⟩

/-- C6 (confirmed): the listing drain returns exactly the concatenation of
the backend's pages in backend order — hence no duplicates and no
omissions — uniformly in the page count (zero, one or N pages, with no
special case for any of them); the two listing operations are its
instances: list_tables maps the drained table entities of the namespace
to (database, name) identifiers and list_namespaces maps the drained
database entities to namespace tuples. -/
theorem listing_drains_pages_in_order (α : Type) (pages : List (List α))
    (st : GlueState) (database_name : String) :
    drainPages pages = pages.flatten ∧
    ((alGet database_name st.databases).isSome = true →
      (list_tables st database_name).1 =
        .ok ((tablesOfDb st database_name).map (fun t => (database_name, t.Name)))) ∧
    (list_namespaces st []).1 =
      .ok ((databasesOf st).map (fun d => identifier_to_tuple d.Name)) := by
  refine ⟨drainPages_eq_join pages, ?_, ?_⟩
  · intro h
    cases hc : alGet database_name st.databases with
    | none => rw [hc] at h; simp at h
    | some d => simp [list_tables, hc, drainPages]
  · simp [list_namespaces, drainPages]

/-- C6 witness: the drain on a four-page backend and the table listing on
a concrete single-database backend. -/
theorem listing_drains_pages_in_order_witness :
    (alGet "db" stOneTable.databases).isSome = true ∧
    (list_tables stOneTable "db").1 =
      .ok ((tablesOfDb stOneTable "db").map (fun t => ("db", t.Name))) ∧
    drainPages [[1, 2], [3], [], [4]] = [[1, 2], [3], ([] : List Nat), [4]].flatten :=
  ⟨by decide,
    (listing_drains_pages_in_order Nat [[1, 2], [3], [], [4]] stOneTable "db").2.1 (by decide),
    (listing_drains_pages_in_order Nat [[1, 2], [3], [], [4]] stOneTable "db").1⟩

/-- C7 (confirmed): drop_namespace lists the member tables first —
surfacing NoSuchNamespace when the namespace itself is missing — fails
NamespaceNotEmpty and leaves the namespace entity (and the whole backend
state) in place when any member table exists, and deletes the entity
exactly when the namespace is empty. -/
theorem drop_namespace_emptiness_gate (st : GlueState) (database_name : String) :
    (alGet database_name st.databases = none →
      drop_namespace st database_name =
        (.error (.noSuchNamespace ("Database does not exist: " ++ database_name)), st,
          [.glueCall (.getTables database_name none)])) ∧
    (∀ d, alGet database_name st.databases = some d → tablesOfDb st database_name ≠ [] →
      drop_namespace st database_name =
        (.error (.namespaceNotEmpty ("Database " ++ database_name ++ " is not empty")), st,
          [.glueCall (.getTables database_name none),
            .glueCall (.getTables database_name none)]) ∧
      alGet database_name (drop_namespace st database_name).2.1.databases = some d) ∧
    (∀ d, alGet database_name st.databases = some d → tablesOfDb st database_name = [] →
      drop_namespace st database_name =
        (.ok (), { st with databases := alErase database_name st.databases },
          [.glueCall (.getTables database_name none),
            .glueCall (.getTables database_name none),
            .glueCall (.deleteDatabase database_name)]) ∧
      alGet database_name (drop_namespace st database_name).2.1.databases = none) := by
  refine ⟨?_, ?_, ?_⟩
  · intro h
    simp [drop_namespace, list_tables, h]
  · intro d hd hne
    have hmain : drop_namespace st database_name =
        (.error (.namespaceNotEmpty ("Database " ++ database_name ++ " is not empty")), st,
          [.glueCall (.getTables database_name none),
            .glueCall (.getTables database_name none)]) := by
      have hlen : 0 < (tablesOfDb st database_name).length := List.length_pos.mpr hne
      simp [drop_namespace, list_tables, hd, drainPages, hlen]
    refine ⟨hmain, ?_⟩
    rw [hmain]
    exact hd
  · intro d hd hempty
    have hmain : drop_namespace st database_name =
        (.ok (), { st with databases := alErase database_name st.databases },
          [.glueCall (.getTables database_name none),
            .glueCall (.getTables database_name none),
            .glueCall (.deleteDatabase database_name)]) := by
      simp [drop_namespace, list_tables, hd, drainPages, hempty, glueDeleteDatabase]
    refine ⟨hmain, ?_⟩
    rw [hmain]
    exact alGet_alErase_self database_name st.databases

/-- C7 witness: dropping the non-empty namespace "db" fails
NamespaceNotEmpty with the entity kept; dropping the empty namespace
"emptydb" succeeds and removes the entity; dropping the missing "nodb"
fails NoSuchNamespace. -/
theorem drop_namespace_emptiness_gate_witness :
    alGet "nodb" stTwoDbs.databases = none ∧
    (drop_namespace stTwoDbs "nodb").1 =
      .error (.noSuchNamespace "Database does not exist: nodb") ∧
    alGet "db" stTwoDbs.databases = some { Name := "db" } ∧
    tablesOfDb stTwoDbs "db" ≠ [] ∧
    (drop_namespace stTwoDbs "db").1 =
      .error (.namespaceNotEmpty "Database db is not empty") ∧
    alGet "emptydb" stTwoDbs.databases = some { Name := "emptydb" } ∧
    tablesOfDb stTwoDbs "emptydb" = [] ∧
    (drop_namespace stTwoDbs "emptydb").1 = .ok () ∧
    alGet "emptydb" (drop_namespace stTwoDbs "emptydb").2.1.databases = none := by
  refine ⟨by decide, ?_, by decide, by decide, ?_, by decide, by decide, ?_, ?_⟩
  · rw [(drop_namespace_emptiness_gate stTwoDbs "nodb").1 (by decide)]
    rfl
  · rw [((drop_namespace_emptiness_gate stTwoDbs "db").2.1 { Name := "db" }
      (by decide) (by decide)).1]
    rfl
  · rw [((drop_namespace_emptiness_gate stTwoDbs "emptydb").2.2 { Name := "emptydb" }
      (by decide) (by decide)).1]
  · exact ((drop_namespace_emptiness_gate stTwoDbs "emptydb").2.2 { Name := "emptydb" }
      (by decide) (by decide)).2

/-- C8 (confirmed): with a non-empty (truthy) namespace argument,
list_namespaces returns the empty sequence with no error and without
issuing a single backend call — hierarchical namespaces are unsupported
by design; only the empty argument performs an actual listing (its trace
is the pre-loop get_databases call followed by the loop's call). -/
theorem list_namespaces_nonempty_arg (st : GlueState) (ns : List String) (h : ns ≠ []) :
    list_namespaces st ns = (.ok [], []) ∧
    (list_namespaces st []).2 =
      [.glueCall (.getDatabases none), .glueCall (.getDatabases none)] := by
  constructor
  · simp [list_namespaces, h]
  · simp [list_namespaces]

/-- C8 witness: listing under the namespace argument ["db"]. -/
theorem list_namespaces_nonempty_arg_witness :
    (["db"] : List String) ≠ [] ∧
    list_namespaces stOneTable ["db"] = (.ok [], []) :=
  ⟨by decide, (list_namespaces_nonempty_arg stOneTable ["db"] (by decide)).1⟩

/-- C10 (confirmed): create_table writes the metadata file to the content
store strictly before issuing the backend registration call (the trace is
the file write followed by the create_table call), so when registration
fails — TableAlreadyExists on a name conflict, NoSuchNamespace on a
missing database — the operation returns the failure with the
already-written metadata file still present in the content store; no
deletion of it is attempted. -/
theorem create_table_writes_before_registration (st : GlueState)
    (database_name table_name : String) (location : Option String) (props : Properties) :
    ((alGet (database_name, table_name) st.tables).isSome = true →
      create_table st database_name table_name location props =
        (.error (.tableAlreadyExists ("Table " ++ database_name ++ "." ++ table_name ++
          " already exists")),
         { st with files := st.files ++
            [_get_metadata_location (_resolve_table_location location database_name
              table_name)] },
         [.fileWrite (_get_metadata_location (_resolve_table_location location database_name
            table_name)),
          .glueCall (.createTable database_name (_construct_create_table_input table_name
            (_get_metadata_location (_resolve_table_location location database_name
              table_name)) props))]) ∧
      _get_metadata_location (_resolve_table_location location database_name table_name) ∈
        (create_table st database_name table_name location props).2.1.files) ∧
    (alGet (database_name, table_name) st.tables = none →
      alGet database_name st.databases = none →
      create_table st database_name table_name location props =
        (.error (.noSuchNamespace ("Database " ++ database_name ++ " does not exist")),
         { st with files := st.files ++
            [_get_metadata_location (_resolve_table_location location database_name
              table_name)] },
         [.fileWrite (_get_metadata_location (_resolve_table_location location database_name
            table_name)),
          .glueCall (.createTable database_name (_construct_create_table_input table_name
            (_get_metadata_location (_resolve_table_location location database_name
              table_name)) props))]) ∧
      _get_metadata_location (_resolve_table_location location database_name table_name) ∈
        (create_table st database_name table_name location props).2.1.files) := by
  have hname := construct_create_table_input_Name table_name
    (_get_metadata_location (_resolve_table_location location database_name table_name)) props
  constructor
  · intro h
    have hmain : create_table st database_name table_name location props =
        (.error (.tableAlreadyExists ("Table " ++ database_name ++ "." ++ table_name ++
          " already exists")),
         { st with files := st.files ++
            [_get_metadata_location (_resolve_table_location location database_name
              table_name)] },
         [.fileWrite (_get_metadata_location (_resolve_table_location location database_name
            table_name)),
          .glueCall (.createTable database_name (_construct_create_table_input table_name
            (_get_metadata_location (_resolve_table_location location database_name
              table_name)) props))]) := by
      simp only [create_table, _create_glue_table, glueCreateTable, hname, h, if_true]
    refine ⟨hmain, ?_⟩
    rw [hmain]
    simp
  · intro h1 h2
    have hmain : create_table st database_name table_name location props =
        (.error (.noSuchNamespace ("Database " ++ database_name ++ " does not exist")),
         { st with files := st.files ++
            [_get_metadata_location (_resolve_table_location location database_name
              table_name)] },
         [.fileWrite (_get_metadata_location (_resolve_table_location location database_name
            table_name)),
          .glueCall (.createTable database_name (_construct_create_table_input table_name
            (_get_metadata_location (_resolve_table_location location database_name
              table_name)) props))]) := by
      simp only [create_table, _create_glue_table, glueCreateTable, hname, h1, h2]
      simp
    refine ⟨hmain, ?_⟩
    rw [hmain]
    simp

/-- C10 witness: creating db.t1 over the existing db.t1 fails
TableAlreadyExists with the metadata file written and kept. -/
theorem create_table_writes_before_registration_witness :
    (alGet ("db", "t1") stOneTable.tables).isSome = true ∧
    _get_metadata_location (_resolve_table_location none "db" "t1") ∈
      (create_table stOneTable "db" "t1" none []).2.1.files :=
  ⟨by decide,
    ((create_table_writes_before_registration stOneTable "db" "t1" none []).1 (by decide)).2⟩

/-- C9 (confirmed): a rename that fails before the source-delete phase —
source entity absent, source failing table-format validation (any
validation error, covering the missing-property and wrong-type-marker
kinds), or the destination registration failing (destination exists /
destination namespace absent, i.e. any `_create_glue_table` error) —
issues no backend delete call targeting the source entity, and returns
the backend state with the source entity binding unchanged. -/
theorem rename_early_failure_preserves_source (st : GlueState) (faults : Faults)
    (fdb fn tdb tn : String) :
    (alGet (fdb, fn) st.tables = none →
      rename_table st faults fdb fn tdb tn =
        (.error (.noSuchTable ("Table does not exist: " ++ fdb ++ "." ++ fn)), st,
          [.glueCall (.getTable fdb fn)])) ∧
    (∀ gt e, alGet (fdb, fn) st.tables = some gt →
      _convert_glue_to_iceberg gt = .error e →
      (rename_table st faults fdb fn tdb tn).2.1 = st ∧
      (rename_table st faults fdb fn tdb tn).2.2 = [.glueCall (.getTable fdb fn)] ∧
      ((rename_table st faults fdb fn tdb tn).2.2.any (deletesTable fdb fn)) = false) ∧
    (∀ gt loc input e, alGet (fdb, fn) st.tables = some gt →
      _convert_glue_to_iceberg gt = .ok loc →
      _construct_rename_table_input tn gt = .ok input →
      _create_glue_table st tdb tn input = .error e →
      rename_table st faults fdb fn tdb tn =
        (.error e, st, [.glueCall (.getTable fdb fn), .glueCall (.createTable tdb input)]) ∧
      ((rename_table st faults fdb fn tdb tn).2.2.any (deletesTable fdb fn)) = false) := by
  refine ⟨?_, ?_, ?_⟩
  · intro h
    simp [rename_table, glueGetTable, h]
  · intro gt e hsrc hconv
    cases e <;> simp [rename_table, glueGetTable, hsrc, hconv, deletesTable]
  · intro gt loc input e hsrc hconv hinput hcreate
    have hmain : rename_table st faults fdb fn tdb tn =
        (.error e, st,
          [.glueCall (.getTable fdb fn), .glueCall (.createTable tdb input)]) := by
      simp [rename_table, glueGetTable, hsrc, hconv, hinput, hcreate]
    refine ⟨hmain, ?_⟩
    rw [hmain]
    simp [deletesTable]

/-- C9 witness: renaming the absent source db.missing fails NoSuchTable
with the state unchanged and no delete call issued. -/
theorem rename_early_failure_preserves_source_witness :
    alGet ("db", "missing") stOneTable.tables = none ∧
    rename_table stOneTable [] "db" "missing" "db" "t2" =
      (.error (.noSuchTable ("Table does not exist: " ++ "db" ++ "." ++ "missing")),
        stOneTable, [.glueCall (.getTable "db" "missing")]) :=
  ⟨by decide,
    (rename_early_failure_preserves_source stOneTable [] "db" "missing" "db" "t2").1
      (by decide)⟩

/-- C1 (counterexample): a rename of db.t1 to db.t2 in which the source
delete fails with a backend-transport error and the compensating delete
of the destination also fails with a backend-transport error: the claim
says a terminal error stating coexistence and instructing manual
intervention is raised, but the code catches only NoSuchTableError in the
rollback handler (glue.py line 345), so the raw backend error propagates
with no manual-intervention message at all. -/
theorem rename_double_failure_counterexample :
    alGet ("db", "t1") faultsBoth = some .transport ∧
    alGet ("db", "t2") faultsBoth = some .transport ∧
    (rename_table stOneTable faultsBoth "db" "t1" "db" "t2").1 =
      .error (.native .transport) ∧
    resultInstructsManualCleanup
      (rename_table stOneTable faultsBoth "db" "t1" "db" "t2").1 = false :=
  ⟨rfl, rfl, rfl, rfl⟩

/-- C1 (amended): in a rename whose source delete fails (any injected
backend failure), the compensating delete of the just-created destination
is attempted, and: when it succeeds, the original failure surfaces
wrapped as a generic ValueError naming the undropped source and the
rolled-back destination, the source still registered and the destination
gone; when it fails with the one error kind the rollback handler catches —
NoSuchTable — a terminal ValueError naming both tables and instructing
manual cleanup is raised; when it fails with any other backend error,
that error propagates raw, with no manual-intervention message. -/
theorem rename_rollback_failure_amended (st : GlueState) (faults : Faults)
    (fdb fn tdb tn : String) (gt : TableTypeDef) (loc tt : String) (fe : GlueErr)
    (h_src : alGet (fdb, fn) st.tables = some gt)
    (h_valid : _convert_glue_to_iceberg gt = .ok loc)
    (h_tt : gt.TableType = some tt) (h_tt2 : tt ≠ "")
    (h_dst : alGet (tdb, tn) st.tables = none)
    (h_db : (alGet tdb st.databases).isSome = true)
    (h_fault : alGet (fdb, fn) faults = some fe) :
    (alGet (tdb, tn) faults = none →
      (rename_table st faults fdb fn tdb tn).1 =
        .error (.valueError ("Failed to drop old table " ++ fdb ++ "." ++ fn ++ ". " ++
          "Rolled back table creation for " ++ tdb ++ "." ++ tn ++ ".")) ∧
      alGet (fdb, fn) (rename_table st faults fdb fn tdb tn).2.1.tables = some gt ∧
      alGet (tdb, tn) (rename_table st faults fdb fn tdb tn).2.1.tables = none) ∧
    (alGet (tdb, tn) faults = some .entityNotFound →
      (rename_table st faults fdb fn tdb tn).1 =
        .error (.valueError ("Failed to drop old table " ++ fdb ++ "." ++ fn ++ ". " ++
          "Failed to roll back table creation for " ++ tdb ++ "." ++ tn ++ ". " ++
          "Please clean up manually"))) ∧
    (∀ fe2, alGet (tdb, tn) faults = some fe2 → fe2 ≠ .entityNotFound →
      (rename_table st faults fdb fn tdb tn).1 = .error (.native fe2)) := by
  have hne : (fdb, fn) ≠ (tdb, tn) := by
    intro he
    rw [he, h_dst] at h_src
    cases h_src
  have hget : glueGetTable st fdb fn = .ok gt := by simp [glueGetTable, h_src]
  have hcons : _construct_rename_table_input tn gt =
      .ok ⟨tn, some tt, gt.Owner, gt.Parameters, gt.StorageDescriptor, gt.Description⟩ := by
    simp [_construct_rename_table_input, h_tt, h_tt2]
  have hcreate : _create_glue_table st tdb tn
      ⟨tn, some tt, gt.Owner, gt.Parameters, gt.StorageDescriptor, gt.Description⟩ =
      .ok { st with tables := st.tables ++ [((tdb, tn), tableOfInput tdb
        ⟨tn, some tt, gt.Owner, gt.Parameters, gt.StorageDescriptor, gt.Description⟩)] } := by
    have hdb' : (alGet tdb st.databases).isNone = false := by
      cases hc : alGet tdb st.databases with
      | none => rw [hc] at h_db; simp at h_db
      | some d => rfl
    simp [_create_glue_table, glueCreateTable, h_dst, hdb']
  have hsrc1 : alGet (fdb, fn)
      (st.tables ++ [((tdb, tn), tableOfInput tdb
        ⟨tn, some tt, gt.Owner, gt.Parameters, gt.StorageDescriptor, gt.Description⟩)]) =
      some gt := alGet_append_left _ _ _ _ h_src
  have hdst1 : alGet (tdb, tn)
      (st.tables ++ [((tdb, tn), tableOfInput tdb
        ⟨tn, some tt, gt.Owner, gt.Parameters, gt.StorageDescriptor, gt.Description⟩)]) =
      some (tableOfInput tdb
        ⟨tn, some tt, gt.Owner, gt.Parameters, gt.StorageDescriptor, gt.Description⟩) := by
    rw [alGet_append_right _ _ _ h_dst]
    simp [alGet]
  have hdropsrc := drop_table_with_fault
    { st with tables := st.tables ++ [((tdb, tn), tableOfInput tdb
      ⟨tn, some tt, gt.Owner, gt.Parameters, gt.StorageDescriptor, gt.Description⟩)] }
    faults fdb fn fe h_fault
  refine ⟨?_, ?_, ?_⟩
  · intro hnf
    have hrb := drop_table_present
      { st with tables := st.tables ++ [((tdb, tn), tableOfInput tdb
        ⟨tn, some tt, gt.Owner, gt.Parameters, gt.StorageDescriptor, gt.Description⟩)] }
      faults tdb tn hnf (by rw [hdst1]; rfl)
    have hmain : rename_table st faults fdb fn tdb tn =
        (.error (.valueError ("Failed to drop old table " ++ fdb ++ "." ++ fn ++ ". " ++
          "Rolled back table creation for " ++ tdb ++ "." ++ tn ++ ".")),
         { st with tables := alErase (tdb, tn) (st.tables ++ [((tdb, tn), tableOfInput tdb
            ⟨tn, some tt, gt.Owner, gt.Parameters, gt.StorageDescriptor,
              gt.Description⟩)]) },
         [.glueCall (.getTable fdb fn),
          .glueCall (.createTable tdb
            ⟨tn, some tt, gt.Owner, gt.Parameters, gt.StorageDescriptor, gt.Description⟩),
          .glueCall (.deleteTable fdb fn), .glueCall (.deleteTable tdb tn)]) := by
      simp [rename_table, hget, h_valid, hcons, hcreate, hdropsrc, hrb]
    refine ⟨by rw [hmain], ?_, ?_⟩
    · rw [hmain]
      rw [show ({ st with tables := alErase (tdb, tn) (st.tables ++ [((tdb, tn),
        tableOfInput tdb ⟨tn, some tt, gt.Owner, gt.Parameters, gt.StorageDescriptor,
          gt.Description⟩)]) } : GlueState).tables = alErase (tdb, tn) (st.tables ++
        [((tdb, tn), tableOfInput tdb ⟨tn, some tt, gt.Owner, gt.Parameters,
          gt.StorageDescriptor, gt.Description⟩)]) from rfl]
      rw [alGet_alErase_ne _ _ _ hne]
      exact hsrc1
    · rw [hmain]
      exact alGet_alErase_self _ _
  · intro hnf
    have hrb := drop_table_with_fault
      { st with tables := st.tables ++ [((tdb, tn), tableOfInput tdb
        ⟨tn, some tt, gt.Owner, gt.Parameters, gt.StorageDescriptor, gt.Description⟩)] }
      faults tdb tn .entityNotFound hnf
    simp [rename_table, hget, h_valid, hcons, hcreate, hdropsrc, hrb, dropFaultErr]
  · intro fe2 hf2 hne2
    have hrb := drop_table_with_fault
      { st with tables := st.tables ++ [((tdb, tn), tableOfInput tdb
        ⟨tn, some tt, gt.Owner, gt.Parameters, gt.StorageDescriptor, gt.Description⟩)] }
      faults tdb tn fe2 hf2
    cases fe2 with
    | entityNotFound => exact absurd rfl hne2
    | alreadyExists =>
      simp [rename_table, hget, h_valid, hcons, hcreate, hdropsrc, hrb, dropFaultErr]
    | invalidInput =>
      simp [rename_table, hget, h_valid, hcons, hcreate, hdropsrc, hrb, dropFaultErr]
    | transport =>
      simp [rename_table, hget, h_valid, hcons, hcreate, hdropsrc, hrb, dropFaultErr]

/-- C1 witness: the rollback-success branch of the amended theorem on a
concrete backend where only the source delete is set to fail: the
original failure surfaces as a generic ValueError, the source still
registered and the destination gone. -/
theorem rename_rollback_failure_amended_witness :
    alGet ("db", "t1") stOneTable.tables = some gtSourceTable ∧
    _convert_glue_to_iceberg gtSourceTable = .ok "s3://b/t1.json" ∧
    gtSourceTable.TableType = some "EXTERNAL_TABLE" ∧
    ("EXTERNAL_TABLE" : String) ≠ "" ∧
    alGet ("db", "t2") stOneTable.tables = none ∧
    (alGet "db" stOneTable.databases).isSome = true ∧
    alGet ("db", "t1") faultsSourceOnly = some .transport ∧
    alGet ("db", "t2") faultsSourceOnly = none ∧
    (rename_table stOneTable faultsSourceOnly "db" "t1" "db" "t2").1 =
      .error (.valueError ("Failed to drop old table " ++ "db" ++ "." ++ "t1" ++ ". " ++
        "Rolled back table creation for " ++ "db" ++ "." ++ "t2" ++ ".")) :=
  ⟨rfl, rfl, rfl, by decide, rfl, rfl, rfl, rfl,
    ((rename_rollback_failure_amended stOneTable faultsSourceOnly "db" "t1" "db" "t2"
      gtSourceTable "s3://b/t1.json" "EXTERNAL_TABLE" .transport
      rfl rfl rfl (by decide) rfl rfl rfl).1 rfl).1⟩

end Glue
